import Mathlib

/-!
A shallow embedding of the transactional KV client core of the repository
(`client/kv.go`, `proto/data.proto`), together with theorems checking the
natural-language specification against it.

Conventions of the embedding:
* Go byte slices are `List Nat` (each element a byte value `< 256` where it
  matters; the CRC reduces every element mod 256 exactly as the hardware
  register would only see the low byte).
* Go `error` is `Option GoErr` (`none` = nil).
* Machine integers are `Int`/`Nat`; the 64-bit two's-complement image of an
  `int64` is taken explicitly with `% 2^64`.
* Pieces of the repository that the claims depend on but that are not part of
  the given sources (`util/retry.go`, `client/txn_sender.go`,
  `proto/data.go`) are modelled from the spec; each such definition says so
  in its doc comment.
-/

namespace KVClient

/-! ## Error taxonomy (proto/errors.proto, referenced from client/kv.go) -/

/-- The closed error taxonomy the transaction driver dispatches on
(`client/kv.go` lines 164-182 names the four retryable kinds; the remaining
concrete kinds appear in `client/kv_test.go`).  `Errorf msg` stands for a
plain Go error produced by `util.Errorf`. -/
inductive GoErr where
  | ReadWithinUncertaintyIntervalError : GoErr
  | TransactionAbortedError : GoErr
  | TransactionPushError : GoErr
  | TransactionRetryError : GoErr
  | TransactionStatusError : GoErr
  | RangeNotFoundError : GoErr
  | RangeKeyMismatchError : GoErr
  | GenericError (msg : String) : GoErr
  | Errorf (msg : String) : GoErr
deriving DecidableEq, Repr

/-! ## Timestamps and the Value envelope (proto/data.proto) -/

/-- `proto.Timestamp`: hybrid logical clock reading (data.proto lines 25-36). -/
structure Timestamp where
  WallTime : Int := 0
  Logical : Int := 0
deriving DecidableEq, Repr

/-- The zero timestamp `proto.Timestamp{}`. -/
def zeroTimestamp : Timestamp := {}

/-- `proto.Value` (data.proto lines 42-59): a tagged payload of optional
bytes or integer, an optional CRC-32-IEEE checksum and an optional
timestamp. -/
structure Value where
  Bytes : Option (List Nat) := none
  Integer : Option Int := none
  Checksum : Option Nat := none
  Timestamp : Option Timestamp := none
deriving DecidableEq, Repr

/-! ## CRC-32/IEEE (hash/crc32 with the IEEE polynomial, as used by
`encoding.NewCRC32Checksum`) -/

/-- The reflected IEEE polynomial used by Go's `crc32.IEEETable`. -/
def crc32Poly : Nat := 0xedb88320

/-- One byte step of the reflected CRC-32/IEEE algorithm. -/
def crc32Byte (crc b : Nat) : Nat :=
  (List.range 8).foldl
    (fun c _ => if c % 2 = 1 then Nat.xor (c / 2) crc32Poly else c / 2)
    (Nat.xor crc (b % 256))

/-- CRC-32/IEEE of a byte sequence: initial register `0xffffffff`, one step
per byte, final complement. -/
def crc32 (data : List Nat) : Nat :=
  Nat.xor (data.foldl crc32Byte 0xffffffff) 0xffffffff

/-- Big-endian 8-byte encoding of a 64-bit quantity
(`encoding.EncodeUint64`). -/
def encodeUint64 (n : Nat) : List Nat :=
  [n / 2 ^ 56 % 256, n / 2 ^ 48 % 256, n / 2 ^ 40 % 256, n / 2 ^ 32 % 256,
   n / 2 ^ 24 % 256, n / 2 ^ 16 % 256, n / 2 ^ 8 % 256, n % 256]

/-- The byte string the checksum covers for a `Value`'s payload: the raw
bytes if present, else the 8-byte big-endian two's-complement form of the
integer if present, else empty (data.proto lines 50-55: "a CRC-32-IEEE
checksum of the key + value, in that order.  If this is an integer value,
then the value is interpreted as an 8 byte, big-endian encoded value"). -/
def Value.payloadBytes (v : Value) : List Nat :=
  match v.Bytes with
  | some bs => bs
  | none =>
    match v.Integer with
    | some i => encodeUint64 ((i % (2 ^ 64 : Int)).toNat)
    | none => []

/-- Modelled from the spec: `proto.Value.computeChecksum` lives in
`proto/data.go`, which is not among the given sources; data.proto lines
50-55 and spec 4.1 describe it as CRC-32/IEEE over the key followed by the
payload, with an integer payload canonicalised to 8-byte big-endian. -/
def Value.computeChecksum (v : Value) (key : List Nat) : Nat :=
  crc32 (key ++ v.payloadBytes)

/-- Modelled from the spec: `proto.Value.InitChecksum` (in `proto/data.go`,
not among the given sources; spec 4.1): compute and store the CRC over
`key ++ payload`; no-op if a checksum is already set. -/
def Value.InitChecksum (v : Value) (key : List Nat) : Value :=
  match v.Checksum with
  | none => { v with Checksum := some (v.computeChecksum key) }
  | some _ => v

/-- Modelled from the spec: `proto.Value.Verify` (in `proto/data.go`, not
among the given sources; spec 4.1): recompute and compare the checksum,
failing on mismatch; an absent checksum is permitted (opt-out). -/
def Value.Verify (v : Value) (key : List Nat) : Option GoErr :=
  match v.Checksum with
  | some c =>
    if c = v.computeChecksum key then none
    else some (GoErr.Errorf "invalid checksum")
  | none => none

/-! ## Requests, calls and the client handle (client/kv.go) -/

/-- Method name `proto.Get`. -/
def Get : String := "Get"

/-- Method name `proto.Put`. -/
def Put : String := "Put"

/-- Method name `proto.EndTransaction`. -/
def EndTransaction : String := "EndTransaction"

/-- `proto.RequestHeader`, restricted to the fields the client core reads or
writes: user, user priority and key. -/
structure RequestHeader where
  User : String := ""
  UserPriority : Option Int := none
  Key : List Nat := []
deriving DecidableEq, Repr

/-- A `client.Call`, viewed from the wire side: the method tag plus the
request fields the embedded code inspects (`Commit` is the
`EndTransactionRequest.Commit` flag, `Value` the `PutRequest.Value`). -/
structure Call where
  Method : String
  Header : RequestHeader := {}
  Commit : Bool := false
  Value : Option Value := none
deriving DecidableEq, Repr

/-- A `client.KV` handle: default user and priority, and which sender
variant it carries (`senderIsTxn` is true for a handle whose sender is the
transactional `txnSender`, the case `RunTransaction` refuses). -/
structure KV where
  User : String := ""
  UserPriority : Int := 0
  senderIsTxn : Bool := false
deriving DecidableEq, Repr

/-- The header fix-up `KV.Call` applies before sending (kv.go lines
106-111): copy the handle's user if the request has none; copy the handle's
priority if the request has none and the handle's is non-zero. -/
def KV.decorate (kv : KV) (c : Call) : Call :=
  let c1 :=
    if c.Header.User = "" then { c with Header := { c.Header with User := kv.User } } else c
  if c1.Header.UserPriority = none ∧ kv.UserPriority ≠ 0 then
    { c1 with Header := { c1.Header with UserPriority := some kv.UserPriority } }
  else c1

/-- The `EndTransaction` call the driver issues itself (kv.go lines 159-161
with `Commit = true`, lines 184-186 with `Commit = false`). -/
def etCall (commit : Bool) : Call := { Method := EndTransaction, Commit := commit }

/-- Whether a call list contains an `EndTransaction`. -/
def hasEndTxn (cs : List Call) : Bool := cs.any (fun c => c.Method == EndTransaction)

/-- How many `EndTransaction` calls a call list contains. -/
def countEndTxn (cs : List Call) : Nat := cs.countP (fun c => c.Method == EndTransaction)

/-! ## Retry machinery (util/retry.go is not among the given sources; its
semantics are modelled from the spec) -/

/-- `util.RetryOptions` as consumed by kv.go lines 32-37 and 149-150. -/
structure RetryOptions where
  Backoff : Nat
  MaxBackoff : Nat
  Constant : Nat
  MaxAttempts : Nat
  Tag : String := ""
deriving DecidableEq, Repr

/-- `time.Millisecond` in nanoseconds. -/
def Millisecond : Nat := 1000000

/-- `time.Second` in nanoseconds. -/
def Second : Nat := 1000000000

/-- `client.TxnRetryOptions` (kv.go lines 31-37): backoff 50ms, cap 5s,
factor 2, `MaxAttempts = 0` meaning "retry indefinitely". -/
def TxnRetryOptions : RetryOptions :=
  { Backoff := 50 * Millisecond, MaxBackoff := 5 * Second, Constant := 2, MaxAttempts := 0 }

/-- The three `util.RetryStatus` values the retry closure may return. -/
inductive RetryStatus where
  | RetryReset
  | RetryContinue
  | RetryBreak
deriving DecidableEq, Repr

/-- Modelled from the spec: the exponential backoff update of
`util.RetryWithBackoff` (util/retry.go is not among the given sources; spec
4.2: multiply by `Constant`, cap at `MaxBackoff`). -/
def nextBackoff (opts : RetryOptions) (backoff : Nat) : Nat :=
  min (backoff * opts.Constant) opts.MaxBackoff

/-- The per-iteration action of the retry loop, as observable behaviour:
retry at once, retry after sleeping a backoff, or exit with an error. -/
inductive LoopStep where
  | retryNow
  | retryAfterBackoff (d : Nat)
  | exitWith (e : Option GoErr)
deriving DecidableEq, Repr

/-- Modelled from the spec: what `util.RetryWithBackoff` does with one
iteration's outcome (util/retry.go is not among the given sources; spec
4.3.1 step 4 and 7): `RetryReset` retries immediately without backoff,
`RetryContinue` sleeps the current backoff before retrying, `RetryBreak`
exits the loop with the iteration's error. -/
def retryStepAction (backoff : Nat) : RetryStatus × Option GoErr → LoopStep
  | (RetryStatus.RetryReset, _) => LoopStep.retryNow
  | (RetryStatus.RetryContinue, _) => LoopStep.retryAfterBackoff backoff
  | (RetryStatus.RetryBreak, e) => LoopStep.exitWith e

/-- Result of a full retry loop run. -/
inductive RetryResult where
  | done (err : Option GoErr)
  | exhausted
  | fuelOut
deriving DecidableEq, Repr

/-- Modelled from the spec: `util.RetryWithBackoff` (util/retry.go is not
among the given sources).  One call of `fn` per iteration; reset restarts
with the initial backoff, continue sleeps and multiplies the backoff
(capped), break returns the iteration's error.  `MaxAttempts = 0` means
unbounded (kv.go line 36: "retry indefinitely"); a positive `MaxAttempts`
bounds the backoff retries, `.exhausted` reporting that bound being hit.
The `fuel` argument only makes the model total. -/
def retryLoop (opts : RetryOptions) (fn : Nat → RetryStatus × Option GoErr) :
    Nat → Nat → Nat → Nat → RetryResult
  | 0, _, _, _ => RetryResult.fuelOut
  | fuel + 1, i, backoff, attempts =>
    match fn i with
    | (RetryStatus.RetryBreak, e) => RetryResult.done e
    | (RetryStatus.RetryReset, _) => retryLoop opts fn fuel (i + 1) opts.Backoff 0
    | (RetryStatus.RetryContinue, _) =>
      if opts.MaxAttempts ≠ 0 ∧ opts.MaxAttempts ≤ attempts + 1 then RetryResult.exhausted
      else retryLoop opts fn fuel (i + 1) (nextBackoff opts backoff) (attempts + 1)

/-! ## The RunTransaction driver (kv.go lines 124-193) -/

/-- The error dispatch switch of `RunTransaction`'s retry closure (kv.go
lines 164-182): uncertainty and txn-retry errors reset, aborted and push
errors continue, everything else (nil included) breaks carrying the error. -/
def runTxnSwitch : Option GoErr → RetryStatus × Option GoErr
  | some GoErr.ReadWithinUncertaintyIntervalError => (RetryStatus.RetryReset, none)
  | some GoErr.TransactionAbortedError => (RetryStatus.RetryContinue, none)
  | some GoErr.TransactionPushError => (RetryStatus.RetryContinue, none)
  | some GoErr.TransactionRetryError => (RetryStatus.RetryReset, none)
  | e => (RetryStatus.RetryBreak, e)

/-- How one invocation of the caller's closure ends: a nil return, an error
return, or a panic. -/
inductive ClosureRes where
  | ok
  | fail (e : GoErr)
  | panics
deriving DecidableEq, Repr

/-- One epoch's behaviour of the caller's closure, abstracted: the calls it
issues through the child handle (in order, not yet decorated) and how it
returns.  The driver re-invokes the closure with the epoch index. -/
structure ClosureProg where
  calls : List Call
  result : ClosureRes

/-- What one epoch of the driver body produced. -/
structure EpochOut where
  driverCalls : List Call
  resultErr : Option GoErr
  txnEnd : Bool
deriving DecidableEq, Repr

/-- One epoch of the driver body (kv.go lines 152-163) for a closure that
did not panic: reset `txnEnd`, run the closure, and if it returned no error
and did not itself end the transaction, issue `EndTransaction(Commit=true)`
whose reply error becomes the epoch's result error.  The `txnEnd` flag is
modelled from the spec (client/txn_sender.go is not among the given sources;
spec 4.3.2 step 5): the transactional sender sets it whenever an
`EndTransaction` call passes through it, regardless of success. -/
def epochBody (prog : ClosureProg) (commitReplyErr : Option GoErr) : EpochOut :=
  let ended := hasEndTxn prog.calls
  match prog.result with
  | ClosureRes.ok =>
    if ended then { driverCalls := [], resultErr := none, txnEnd := true }
    else { driverCalls := [etCall true], resultErr := commitReplyErr, txnEnd := true }
  | ClosureRes.fail e => { driverCalls := [], resultErr := some e, txnEnd := ended }
  | ClosureRes.panics => { driverCalls := [], resultErr := none, txnEnd := ended }

/-- What the exit path of `RunTransaction` produced. -/
structure FinishOut where
  abortCalls : List Call
  ret : Option GoErr
  logged : Option GoErr
deriving DecidableEq, Repr

/-- The exit path of `RunTransaction` (kv.go lines 183-192): only when the
retry loop produced a non-nil error *and* the transaction was not ended does
the code enter the if-body, issue `EndTransaction(Commit=false)` (a non-nil
reply error of that abort is logged — the `logged` field — never returned)
and `return err`; in every other case, including a non-nil loop error with
`txnEnd` already true, execution falls through to the final `return nil`,
so the error is swallowed there. -/
def finishRetry (loopErr : Option GoErr) (txnEnd : Bool) (abortReplyErr : Option GoErr) :
    FinishOut :=
  match loopErr with
  | some e =>
    if txnEnd then { abortCalls := [], ret := none, logged := none }
    else { abortCalls := [etCall false], ret := some e, logged := abortReplyErr }
  | none => { abortCalls := [], ret := none, logged := none }

/-- How a `RunTransaction` run ends: a normal return with a Go error value,
a propagated closure panic, or fuel exhaustion (a modelling artifact for the
unbounded loop). -/
inductive RunOutcome where
  | normal (err : Option GoErr)
  | panicked
  | fuelOut
deriving DecidableEq, Repr

/-- The retry loop of `RunTransaction` (kv.go lines 151-192) run against a
wire environment.  `env n` is the response error the wire gives to the n-th
call sent on the handle's wire; `retryable i` is the closure's behaviour in
epoch `i`; `acc` accumulates the wire trace.  On a closure panic the
deferred `txnKV.Close()` runs; that the close of a still-pending
transactional handle issues the abort is modelled from the spec
(client/txn_sender.go is not among the given sources; spec 5: an erroring
`run_transaction` with a pending txn "must issue its abort before returning,
even under panic"). -/
def execLoop (kv : KV) (opts : RetryOptions) (retryable : Nat → ClosureProg)
    (env : Nat → Option GoErr) :
    Nat → Nat → Nat → Nat → List Call → List Call × RunOutcome
  | 0, _, _, _, acc => (acc, RunOutcome.fuelOut)
  | fuel + 1, i, backoff, attempts, acc =>
    let prog := retryable i
    let closureCalls := prog.calls.map kv.decorate
    match prog.result with
    | ClosureRes.panics =>
      if hasEndTxn prog.calls then (acc ++ closureCalls, RunOutcome.panicked)
      else (acc ++ closureCalls ++ [kv.decorate (etCall false)], RunOutcome.panicked)
    | _ =>
      let out := epochBody prog (env (acc.length + closureCalls.length))
      let acc1 := acc ++ closureCalls ++ out.driverCalls.map kv.decorate
      match runTxnSwitch out.resultErr with
      | (RetryStatus.RetryBreak, e) =>
        let fin := finishRetry e out.txnEnd (env acc1.length)
        (acc1 ++ fin.abortCalls.map kv.decorate, RunOutcome.normal fin.ret)
      | (RetryStatus.RetryReset, _) =>
        execLoop kv opts retryable env fuel (i + 1) opts.Backoff 0 acc1
      | (RetryStatus.RetryContinue, _) =>
        if opts.MaxAttempts ≠ 0 ∧ opts.MaxAttempts ≤ attempts + 1 then
          let fin := finishRetry out.resultErr out.txnEnd (env acc1.length)
          (acc1 ++ fin.abortCalls.map kv.decorate, RunOutcome.normal fin.ret)
        else
          execLoop kv opts retryable env fuel (i + 1) (nextBackoff opts backoff) (attempts + 1) acc1

/-- `proto.IsolationType` (data.proto lines 104-110). -/
inductive IsolationType where
  | SERIALIZABLE
  | SNAPSHOT
deriving DecidableEq, Repr

/-- `client.TransactionOptions` (kv.go lines 40-43). -/
structure TransactionOptions where
  Name : String := ""
  Isolation : IsolationType := IsolationType.SERIALIZABLE
deriving DecidableEq, Repr

/-- The error `RunTransaction` returns when invoked on an
already-transactional handle (kv.go line 135). -/
def nestedTxnError : GoErr :=
  GoErr.Errorf "cannot invoke RunTransaction on an already-transactional client"

/-- The transactional child handle built by `RunTransaction` (kv.go lines
140-144): it inherits the parent's `User` and `UserPriority` and carries the
transactional sender. -/
def txnChildKV (kv : KV) : KV :=
  { User := kv.User, UserPriority := kv.UserPriority, senderIsTxn := true }

/-- `RunTransaction` (kv.go lines 133-193): refuse a nested invocation
without touching the wire, otherwise build the child handle and run the
retry loop with `TxnRetryOptions` tagged by the transaction name.  Returns
the full wire trace and the outcome. -/
def RunTransaction (kv : KV) (opts : TransactionOptions) (retryable : Nat → ClosureProg)
    (env : Nat → Option GoErr) (fuel : Nat) : List Call × RunOutcome :=
  if kv.senderIsTxn then ([], RunOutcome.normal (some nestedTxnError))
  else
    let retryOpts := { TxnRetryOptions with Tag := opts.Name }
    execLoop (txnChildKV kv) retryOpts retryable env fuel 0 retryOpts.Backoff 0 []

/-! ## Read and write wrappers (kv.go lines 195-272) -/

/-- `getInternal` (kv.go lines 233-244), given the wire outcome of its `Get`
call: on a call error return it; on a present reply value return the value
together with `Verify(key)`; on an absent value return (nil, nil). -/
def getInternal (key : List Nat) (callErr : Option GoErr) (replyValue : Option Value) :
    Option Value × Option GoErr :=
  match callErr with
  | some e => (none, some e)
  | none =>
    match replyValue with
    | some v => (some v, v.Verify key)
    | none => (none, none)

/-- The `(found, timestamp, error)` triple the read wrappers return. -/
structure GetResult where
  found : Bool
  timestamp : Timestamp
  error : Option GoErr
deriving DecidableEq, Repr

/-- `GetI` (kv.go lines 201-213), given the wire outcome of the underlying
`Get` and the outcome `decodeErr` of the gob decode of the value's bytes.
(Go dereferences `*value.Timestamp` on the found path; the model reads the
optional timestamp with default zero.) -/
def GetI (key : List Nat) (callErr : Option GoErr) (replyValue : Option Value)
    (decodeErr : Option GoErr) : GetResult :=
  let r := getInternal key callErr replyValue
  match r.2, r.1 with
  | some e, _ => { found := false, timestamp := zeroTimestamp, error := some e }
  | none, none => { found := false, timestamp := zeroTimestamp, error := none }
  | none, some v =>
    if v.Integer.isSome then
      { found := false, timestamp := zeroTimestamp,
        error := some (GoErr.Errorf "unexpected integer value") }
    else
      { found := true, timestamp := v.Timestamp.getD zeroTimestamp, error := decodeErr }

/-- `GetProto` (kv.go lines 218-230), same shape as `GetI` with the protobuf
unmarshal outcome abstracted as `unmarshalErr`. -/
def GetProto (key : List Nat) (callErr : Option GoErr) (replyValue : Option Value)
    (unmarshalErr : Option GoErr) : GetResult :=
  let r := getInternal key callErr replyValue
  match r.2, r.1 with
  | some e, _ => { found := false, timestamp := zeroTimestamp, error := some e }
  | none, none => { found := false, timestamp := zeroTimestamp, error := none }
  | none, some v =>
    if v.Integer.isSome then
      { found := false, timestamp := zeroTimestamp,
        error := some (GoErr.Errorf "unexpected integer value") }
    else
      { found := true, timestamp := v.Timestamp.getD zeroTimestamp, error := unmarshalErr }

/-- `putInternal` (kv.go lines 266-272): initialise the value's checksum
with the key, then issue the `Put` carrying that value. -/
def putInternal (key : List Nat) (value : Value) : Call :=
  { Method := Put, Header := { Key := key }, Value := some (value.InitChecksum key) }

/-! ## Helper lemmas -/

/-- A call list without an `EndTransaction` has an `EndTransaction` count of
zero. -/
theorem countEndTxn_eq_zero (cs : List Call) (h : hasEndTxn cs = false) :
    countEndTxn cs = 0 := by
  simp only [hasEndTxn, List.any_eq_false] at h
  simpa [countEndTxn, List.countP_eq_zero] using h

/-- A call list with an `EndTransaction` has a positive `EndTransaction`
count. -/
theorem countEndTxn_pos (cs : List Call) (h : hasEndTxn cs = true) :
    1 ≤ countEndTxn cs := by
  simp only [hasEndTxn, List.any_eq_true] at h
  have := List.countP_pos_iff (p := fun c => c.Method == EndTransaction) (l := cs) |>.2 h
  simp only [countEndTxn]
  omega

/-- `countEndTxn` distributes over append. -/
theorem countEndTxn_append (cs ds : List Call) :
    countEndTxn (cs ++ ds) = countEndTxn cs + countEndTxn ds :=
  List.countP_append _ _ _

/-- With `MaxAttempts = 0`, the retry loop never reports attempt
exhaustion. -/
theorem retryLoop_maxAttempts_zero (opts : RetryOptions) (h : opts.MaxAttempts = 0)
    (fn : Nat → RetryStatus × Option GoErr) :
    ∀ fuel i b a, retryLoop opts fn fuel i b a ≠ RetryResult.exhausted := by
  intro fuel
  induction fuel with
  | zero => intro i b a; simp [retryLoop]
  | succ n ih =>
    intro i b a
    rcases hfn : fn i with ⟨st, e⟩
    cases st
    · simpa [retryLoop, hfn] using ih (i + 1) opts.Backoff 0
    · simpa [retryLoop, hfn, h] using ih (i + 1) (nextBackoff opts b) (a + 1)
    · simp [retryLoop, hfn]

/-- The payload, and hence the recomputed checksum, of a `Value` do not
depend on its `Checksum` or `Timestamp` field. -/
theorem payloadBytes_set_checksum (v : Value) (c : Option Nat) :
    ({ v with Checksum := c } : Value).payloadBytes = v.payloadBytes := rfl

/-! ## Claim theorems -/

/-- Claim C1: in the `RunTransaction` driver loop, the result error of an
epoch is dispatched so that `ReadWithinUncertaintyIntervalError` and
`TransactionRetryError` cause an immediate retry without backoff,
`TransactionAbortedError` and `TransactionPushError` cause a retry after
backoff, and any other error, or nil, exits the loop with that error. -/
theorem claim_C1_retry_dispatch (e : Option GoErr) (b : Nat) :
    ((e = some GoErr.ReadWithinUncertaintyIntervalError ∨
        e = some GoErr.TransactionRetryError) →
      retryStepAction b (runTxnSwitch e) = LoopStep.retryNow) ∧
    ((e = some GoErr.TransactionAbortedError ∨ e = some GoErr.TransactionPushError) →
      retryStepAction b (runTxnSwitch e) = LoopStep.retryAfterBackoff b) ∧
    (e ≠ some GoErr.ReadWithinUncertaintyIntervalError →
      e ≠ some GoErr.TransactionRetryError →
      e ≠ some GoErr.TransactionAbortedError →
      e ≠ some GoErr.TransactionPushError →
      retryStepAction b (runTxnSwitch e) = LoopStep.exitWith e) := by
  rcases e with _ | er
  · refine ⟨?_, ?_, ?_⟩ <;> simp [runTxnSwitch, retryStepAction]
  · cases er <;> refine ⟨?_, ?_, ?_⟩ <;> simp [runTxnSwitch, retryStepAction]

/-- Witness for C1 at concrete errors and backoff 3. -/
theorem claim_C1_witness :
    retryStepAction 3 (runTxnSwitch (some GoErr.TransactionPushError)) =
      LoopStep.retryAfterBackoff 3 ∧
    retryStepAction 3 (runTxnSwitch (some GoErr.TransactionRetryError)) = LoopStep.retryNow ∧
    retryStepAction 3 (runTxnSwitch (some GoErr.RangeNotFoundError)) =
      LoopStep.exitWith (some GoErr.RangeNotFoundError) :=
  ⟨(claim_C1_retry_dispatch _ 3).2.1 (Or.inr rfl),
   (claim_C1_retry_dispatch _ 3).1 (Or.inr rfl),
   (claim_C1_retry_dispatch _ 3).2.2 (by decide) (by decide) (by decide) (by decide)⟩

/-- Claim C4: calling `RunTransaction` on a handle that is already
transactional fails immediately with the nested-transaction error, and no
request reaches the wire (the trace is empty). -/
theorem claim_C4_nested_txn (kv : KV) (opts : TransactionOptions)
    (retryable : Nat → ClosureProg) (env : Nat → Option GoErr) (fuel : Nat)
    (h : kv.senderIsTxn = true) :
    RunTransaction kv opts retryable env fuel = ([], RunOutcome.normal (some nestedTxnError)) := by
  simp [RunTransaction, h]

/-- Witness for C4 on a concrete transactional handle. -/
theorem claim_C4_witness :
    RunTransaction { User := "u", senderIsTxn := true } {}
      (fun _ => { calls := [], result := ClosureRes.ok }) (fun _ => none) 5 =
      ([], RunOutcome.normal (some nestedTxnError)) :=
  claim_C4_nested_txn _ _ _ _ _ rfl

/-- Claim C6: for reads through `GetI` or `GetProto`, an absent key yields
the triple (false, zero timestamp, nil error); absence is not an error. -/
theorem claim_C6_absent_key (key : List Nat) (d : Option GoErr) :
    GetI key none none d = { found := false, timestamp := zeroTimestamp, error := none } ∧
    GetProto key none none d = { found := false, timestamp := zeroTimestamp, error := none } := by
  constructor <;> rfl

/-- Witness for C6 at a concrete key. -/
theorem claim_C6_witness :
    GetI [0] none none none = { found := false, timestamp := zeroTimestamp, error := none } :=
  (claim_C6_absent_key [0] none).1

/-- Claim C7: a stored value whose `Integer` field is set, read through the
byte accessors `GetI` or `GetProto`, yields a non-nil error and the triple
(false, zero timestamp, error), even though a value exists at the key. -/
theorem claim_C7_integer_value (key : List Nat) (v : Value) (d : Option GoErr)
    (h : v.Integer.isSome) :
    ((GetI key none (some v) d).found = false ∧
      (GetI key none (some v) d).timestamp = zeroTimestamp ∧
      (GetI key none (some v) d).error.isSome) ∧
    ((GetProto key none (some v) d).found = false ∧
      (GetProto key none (some v) d).timestamp = zeroTimestamp ∧
      (GetProto key none (some v) d).error.isSome) := by
  rcases hv : v.Verify key with _ | e <;>
    simp [GetI, GetProto, getInternal, hv, h]

/-- Witness for C7 on a concrete integer-typed value. -/
theorem claim_C7_witness :
    ((GetI [] none (some { Integer := some 5 }) none).found = false ∧
      (GetI [] none (some { Integer := some 5 }) none).timestamp = zeroTimestamp ∧
      (GetI [] none (some { Integer := some 5 }) none).error.isSome) ∧
    ((GetProto [] none (some { Integer := some 5 }) none).found = false ∧
      (GetProto [] none (some { Integer := some 5 }) none).timestamp = zeroTimestamp ∧
      (GetProto [] none (some { Integer := some 5 }) none).error.isSome) :=
  claim_C7_integer_value [] { Integer := some 5 } none rfl

/-- Claim C10: the transaction retry policy uses exponential backoff with
initial backoff 50ms, multiplication factor 2, maximum backoff 5s, and an
unbounded number of attempts by default (the loop never reports attempt
exhaustion under `TxnRetryOptions`; the bound is a configurable field of
`RetryOptions`). -/
theorem claim_C10_retry_options :
    TxnRetryOptions.Backoff = 50 * Millisecond ∧
    TxnRetryOptions.Constant = 2 ∧
    TxnRetryOptions.MaxBackoff = 5 * Second ∧
    TxnRetryOptions.MaxAttempts = 0 ∧
    (∀ b, nextBackoff TxnRetryOptions b = min (b * 2) (5 * Second)) ∧
    (∀ fn fuel i b a, retryLoop TxnRetryOptions fn fuel i b a ≠ RetryResult.exhausted) :=
  ⟨rfl, rfl, rfl, rfl, fun _ => rfl,
   fun fn => retryLoop_maxAttempts_zero TxnRetryOptions rfl fn⟩

/-- Witness for C10: the loop run on a concrete always-continue closure is
not exhaustion. -/
theorem claim_C10_witness :
    retryLoop TxnRetryOptions (fun _ => (RetryStatus.RetryContinue, none)) 4 0
      TxnRetryOptions.Backoff 0 ≠ RetryResult.exhausted :=
  claim_C10_retry_options.2.2.2.2.2 _ 4 0 TxnRetryOptions.Backoff 0

/-- Claim C2: for every epoch, exactly one `EndTransaction` is issued: if
the closure returns no error and did not itself end the transaction, the
driver issues `EndTransaction(Commit = true)` (whose reply error becomes the
epoch's result error); if the closure ended the transaction explicitly, the
driver issues no second one; so a successful epoch whose closure issued at
most one `EndTransaction` carries exactly one in total. -/
theorem claim_C2_one_end_per_epoch (prog : ClosureProg) (cre : Option GoErr) :
    (prog.result = ClosureRes.ok → hasEndTxn prog.calls = false →
      (epochBody prog cre).driverCalls = [etCall true] ∧
      (epochBody prog cre).resultErr = cre ∧ (epochBody prog cre).txnEnd = true) ∧
    (hasEndTxn prog.calls = true → (epochBody prog cre).driverCalls = []) ∧
    (prog.result = ClosureRes.ok → countEndTxn prog.calls ≤ 1 →
      countEndTxn (prog.calls ++ (epochBody prog cre).driverCalls) = 1) := by
  rcases prog with ⟨cs, res⟩
  refine ⟨?_, ?_, ?_⟩
  · intro hres hend
    subst hres
    simp [epochBody, hend]
  · intro hend
    cases res <;> simp [epochBody, hend]
  · intro hres hcount
    subst hres
    cases hend : hasEndTxn cs
    · have h0 := countEndTxn_eq_zero cs hend
      have hd : (epochBody ⟨cs, ClosureRes.ok⟩ cre).driverCalls = [etCall true] := by
        simp [epochBody, hend]
      rw [hd, countEndTxn_append, h0]
      decide
    · have h1 := countEndTxn_pos cs hend
      have hcount' : countEndTxn cs ≤ 1 := hcount
      have hd : (epochBody ⟨cs, ClosureRes.ok⟩ cre).driverCalls = [] := by
        simp [epochBody, hend]
      rw [hd, List.append_nil]
      show countEndTxn cs = 1
      omega

/-- Witness for C2: an empty successful closure epoch gets exactly the
implicit commit. -/
theorem claim_C2_witness :
    (epochBody { calls := [], result := ClosureRes.ok } none).driverCalls = [etCall true] ∧
    countEndTxn ([] ++ (epochBody { calls := [], result := ClosureRes.ok } none).driverCalls) = 1 :=
  ⟨((claim_C2_one_end_per_epoch { calls := [], result := ClosureRes.ok } none).1 rfl rfl).1,
   (claim_C2_one_end_per_epoch { calls := [], result := ClosureRes.ok } none).2.2 rfl
     (by decide)⟩

/-- Claim C3: when the retry loop exits with a non-nil error and the
transaction has not already been ended, the driver issues
`EndTransaction(Commit = false)`, any error from that abort call is logged
and not returned, and the loop's original error is returned; and a nil loop
error (successful commit) returns nil with no abort. -/
theorem claim_C3_abort_on_error (loopErr : Option GoErr) (ended : Bool)
    (aerr : Option GoErr) :
    (loopErr ≠ none → ended = false →
      (finishRetry loopErr ended aerr).abortCalls = [etCall false] ∧
      (finishRetry loopErr ended aerr).logged = aerr ∧
      (finishRetry loopErr ended aerr).ret = loopErr) ∧
    (loopErr = none →
      (finishRetry loopErr ended aerr).ret = none ∧
      (finishRetry loopErr ended aerr).abortCalls = []) := by
  rcases loopErr with _ | e
  · simp [finishRetry]
  · cases ended <;> simp [finishRetry]

/-- Witness for C3: a concrete erroring loop exit with a failing abort. -/
theorem claim_C3_witness :
    (finishRetry (some (GoErr.Errorf "foo")) false (some GoErr.RangeNotFoundError)).abortCalls =
      [etCall false] ∧
    (finishRetry (some (GoErr.Errorf "foo")) false (some GoErr.RangeNotFoundError)).logged =
      some GoErr.RangeNotFoundError ∧
    (finishRetry (some (GoErr.Errorf "foo")) false (some GoErr.RangeNotFoundError)).ret =
      some (GoErr.Errorf "foo") :=
  (claim_C3_abort_on_error _ false _).1 (by simp) rfl

/-- Claim C5: a `RunTransaction` ending with an error while the transaction
is still pending issues its abort before returning, even when the closure
panics: a panicking epoch whose closure did not end the transaction makes
the trace end with `EndTransaction(Commit = false)` before the panic
propagates, and a normal error exit with a pending transaction issues the
same abort before returning. -/
theorem claim_C5_abort_before_return (kv : KV) (opts : RetryOptions)
    (retryable : Nat → ClosureProg) (env : Nat → Option GoErr)
    (fuel i b a : Nat) (acc : List Call) (cs : List Call)
    (hprog : retryable i = { calls := cs, result := ClosureRes.panics })
    (hend : hasEndTxn cs = false) :
    execLoop kv opts retryable env (fuel + 1) i b a acc =
      (acc ++ cs.map kv.decorate ++ [kv.decorate (etCall false)], RunOutcome.panicked) ∧
    (∀ (e : GoErr) (aerr : Option GoErr),
      (finishRetry (some e) false aerr).abortCalls = [etCall false] ∧
      (finishRetry (some e) false aerr).ret = some e) := by
  constructor
  · simp [execLoop, hprog, hend]
  · intro e aerr
    simp [finishRetry]

/-- Witness for C5: a concrete panicking closure with no explicit end. -/
theorem claim_C5_witness :
    execLoop {} TxnRetryOptions (fun _ => { calls := [], result := ClosureRes.panics })
      (fun _ => none) 1 0 0 0 [] =
      ([KV.decorate {} (etCall false)], RunOutcome.panicked) :=
  (claim_C5_abort_before_return {} TxnRetryOptions _ _ 0 0 0 0 [] [] rfl rfl).1

/-- Counterexample to claim C9: a handle whose `UserPriority` is zero does
not copy its priority into a request that lacks one (kv.go line 109 guards
on the handle's priority being non-zero), so it is not the case that a
request header with no user_priority is always set to the handle's
user_priority. -/
theorem claim_C9_counterexample :
    (({ User := "foo", UserPriority := 0 } : KV).decorate { Method := Put }).Header.UserPriority =
      none ∧
    (({ User := "foo", UserPriority := 0 } : KV).decorate { Method := Put }).Header.UserPriority ≠
      some ({ User := "foo", UserPriority := 0 } : KV).UserPriority := by
  constructor <;> decide

/-- Claim C9 (amended): for every call issued through a handle, if the
request header has no user it is set to the handle's user, and if it has no
user_priority and the handle's user_priority is non-zero it is set to the
handle's user_priority (values already present are preserved); the
transactional child handle created by `RunTransaction` inherits the parent's
user and user_priority, so every decorated request carries these values
whenever the request left them unset and, for the priority, the handle's
value is non-zero. -/
theorem claim_C9_user_propagation (kv : KV) (c : Call) :
    (c.Header.User = "" → (kv.decorate c).Header.User = kv.User) ∧
    (c.Header.User ≠ "" → (kv.decorate c).Header.User = c.Header.User) ∧
    (c.Header.UserPriority = none → kv.UserPriority ≠ 0 →
      (kv.decorate c).Header.UserPriority = some kv.UserPriority) ∧
    (∀ q : Int, c.Header.UserPriority = some q →
      (kv.decorate c).Header.UserPriority = some q) ∧
    (txnChildKV kv).User = kv.User ∧ (txnChildKV kv).UserPriority = kv.UserPriority := by
  refine ⟨?_, ?_, ?_, ?_, rfl, rfl⟩
  · intro h
    by_cases hp : c.Header.UserPriority = none ∧ kv.UserPriority ≠ 0 <;>
      simp [KV.decorate, h, hp]
  · intro h
    by_cases hp : c.Header.UserPriority = none ∧ kv.UserPriority ≠ 0 <;>
      simp [KV.decorate, h, hp]
  · intro h1 h2
    by_cases hu : c.Header.User = "" <;>
      simp [KV.decorate, hu, h1, h2]
  · intro q hq
    by_cases hu : c.Header.User = "" <;>
      simp [KV.decorate, hu, hq]

/-- Witness for C9 on the spec's scenario: user "foo", priority 101. -/
theorem claim_C9_witness :
    (({ User := "foo", UserPriority := 101 } : KV).decorate { Method := Put }).Header.User =
      "foo" ∧
    (({ User := "foo", UserPriority := 101 } : KV).decorate { Method := Put }).Header.UserPriority =
      some 101 :=
  ⟨(claim_C9_user_propagation _ _).1 rfl,
   (claim_C9_user_propagation _ _).2.2.1 rfl (by decide)⟩

/-- Counterexample to claim C8: mutating a checksummed value's timestamp (a
genuine mutation of the `Value`) leaves `Verify` succeeding, because the
checksum covers only the key and the payload; so verify-after-mutation does
not always fail.  Likewise (second conjunct) a value carrying a mismatched
pre-set checksum makes `InitChecksum` a no-op, so init-then-verify is not
the identity for every `Value`. -/
theorem claim_C8_counterexample :
    (let v : Value := { Bytes := some [1, 2, 3] }
     let v1 := v.InitChecksum [0]
     let v2 : Value := { v1 with Timestamp := some { WallTime := 5, Logical := 0 } }
     v2 ≠ v1 ∧ v2.Verify [0] = none) ∧
    (let w : Value := { Bytes := some [1, 2, 3], Checksum := some 1 }
     (w.InitChecksum [0]).Verify [0] ≠ none) := by
  constructor <;> decide

/-- Claim C8 (amended): for every `Value` whose checksum is initially unset
and every key, `InitChecksum(key)` followed by `Verify(key)` on the
unchanged value succeeds; the stored checksum is CRC-32/IEEE over the key
then the payload, with an integer payload canonicalised to 8-byte
big-endian; and after mutating the payload or changing the key without
re-initialising the checksum, `Verify` succeeds exactly when the recomputed
CRC-32 equals the stored one — in particular it fails for every mutation or
key change that alters the CRC of key-then-payload. -/
theorem claim_C8_checksum (v : Value) (key : List Nat) (h : v.Checksum = none) :
    (v.InitChecksum key).Verify key = none ∧
    (v.InitChecksum key).Checksum = some (crc32 (key ++ v.payloadBytes)) ∧
    (∀ i : Int, v.Bytes = none → v.Integer = some i →
      v.payloadBytes = encodeUint64 ((i % (2 ^ 64 : Int)).toNat)) ∧
    (∀ (w : Value) (key' : List Nat), w.Checksum = (v.InitChecksum key).Checksum →
      (w.Verify key' = none ↔
        crc32 (key' ++ w.payloadBytes) = crc32 (key ++ v.payloadBytes))) := by
  have hinit : v.InitChecksum key = { v with Checksum := some (v.computeChecksum key) } := by
    simp [Value.InitChecksum, h]
  refine ⟨?_, ?_, ?_, ?_⟩
  · rw [hinit]
    simp [Value.Verify, Value.computeChecksum, payloadBytes_set_checksum]
  · rw [hinit]
    simp [Value.computeChecksum]
  · intro i h1 h2
    simp [Value.payloadBytes, h1, h2]
  · intro w key' hw
    rw [hinit] at hw
    simp only [Value.Verify, hw, Value.computeChecksum]
    split_ifs with hc
    · simp [Value.computeChecksum] at hc
      simp [hc]
    · simp [Value.computeChecksum] at hc
      simp [Ne.symm hc]

/-- Witness for C8 on a concrete freshly-built value. -/
theorem claim_C8_witness :
    (({ Bytes := some [7] } : Value).InitChecksum [1]).Verify [1] = none :=
  (claim_C8_checksum { Bytes := some [7] } [1] rfl).1

end KVClient
